import Mathlib

/-!
Shallow embedding of the MemoraAI background video-processing pipeline:
the retry executor, the transcription adapter, the multi-modal insights
fan-out, highlight-reel generation, the orchestrator
(`processVideoInBackground`) and record deletion, together with proofs of
the stated properties.

External effects (provider calls, blob storage, randomness, the clock) are
modelled as explicit oracle values in environment structures; persistence
(`video.save()`) is modelled as succeeding, i.e. the in-memory record is
the persisted record.
-/

namespace MemoraAI

/-- The four-valued stage / aggregate status used throughout
`Video.processing` (`pending | processing | completed | failed`). -/
inductive Status where
  | pending
  | processing
  | completed
  | failed
deriving DecidableEq, Repr

/-- Outcome of one invocation of a wrapped function inside
`retryWithBackoff`: either a successful value or a thrown error carrying
the retryable-classification that `isRetryableError` computes from it
(connection errors / 5xx / timeouts are retryable). -/
inductive CallOutcome (α : Type) where
  | success (v : α)
  | failure (retryable : Bool) (msg : String)
deriving DecidableEq, Repr

/-- Result of a `retryWithBackoff` run: the value or the last thrown
error, the number of times the wrapped function was invoked, and the list
of backoff sleep durations (in ms) that were performed, in order. -/
structure RetryResult (α : Type) where
  result : Except String α
  calls : Nat
  sleeps : List Nat
deriving Repr

/-- The `for (let attempt = 1; attempt <= maxRetries; attempt++)` loop of
`retryWithBackoff` (aiService `retryWithBackoff`), starting at a given
attempt number.  On success returns the value; on a thrown error it
rethrows when `attempt === maxRetries` or when the error is not
retryable, and otherwise sleeps `baseDelay * 2^(attempt-1)` and retries.
If the loop guard fails immediately the JS function falls through and
resolves with `undefined`, modelled as the distinguished error below.
The `fuel` argument only drives the structural recursion; it never runs
out when the loop is entered with `fuel > maxRetries - attempt`, as
`retryWithBackoff` does. -/
def retryLoop (outcomes : Nat → CallOutcome α) (maxRetries baseDelay : Nat) :
    Nat → Nat → RetryResult α
  | 0, _ => ⟨.error "undefined", 0, []⟩
  | fuel + 1, attempt =>
    if attempt ≤ maxRetries then
      match outcomes attempt with
      | .success v => ⟨.ok v, 1, []⟩
      | .failure retryable msg =>
        if attempt = maxRetries then ⟨.error msg, 1, []⟩
        else if retryable = false then ⟨.error msg, 1, []⟩
        else
          let d := baseDelay * 2 ^ (attempt - 1)
          let r := retryLoop outcomes maxRetries baseDelay fuel (attempt + 1)
          ⟨r.result, r.calls + 1, d :: r.sleeps⟩
    else ⟨.error "undefined", 0, []⟩

/-- `retryWithBackoff(fn, maxRetries, baseDelay)`: attempts start at 1.
`outcomes n` is what the wrapped function does on its n-th invocation. -/
def retryWithBackoff (outcomes : Nat → CallOutcome α) (maxRetries : Nat := 3)
    (baseDelay : Nat := 2000) : RetryResult α :=
  retryLoop outcomes maxRetries baseDelay (maxRetries + 1) 1

/-! ## Transcription adapter (aiService `transcribeVideo`)

Confidence values are floating-point fractions in the source; they are
modelled in hundredths (the source's `0.95` is `95`).  Time values are
modelled as naturals (the mock data uses integral seconds). -/

/-- One `(start, end, text)` transcript segment.  `end` is a Lean keyword,
so the field is called `stop`. -/
structure Segment where
  start : Nat
  stop : Nat
  text : String
deriving DecidableEq, Repr

/-- One `(word, start, end)` token of a verbose transcription. -/
structure Word where
  word : String
  start : Nat
  stop : Nat
deriving DecidableEq, Repr

/-- The object `transcribeVideo` resolves with: transcript text plus the
metadata and the derived-audio blob pointers (absent on the raw mocks). -/
structure Transcription where
  text : String
  confidence : Nat
  language : String
  duration : Nat
  segments : List Segment
  words : List Word
  audioCloudinaryUrl : Option String
  audioCloudinaryPublicId : Option String
deriving DecidableEq, Repr

/-- Result of `extractAndUploadAudioFromVideo`: the derived audio blob's
URL and Cloudinary public id. -/
structure AudioData where
  cloudinaryUrl : String
  cloudinaryPublicId : String
deriving DecidableEq, Repr

/-- The verbose-JSON response of the Groq Whisper provider: `language` and
`duration` may be absent (the adapter defaults them with `||`). -/
structure ProviderTranscription where
  text : String
  language : Option String
  duration : Option Nat
  segments : List Segment
  words : List Word
deriving DecidableEq, Repr

/-- The two fixed mock transcriptions of
`generateEnhancedMockTranscription` (verbatim from the source; `words` and
the audio pointers are absent on the mock objects, i.e. `[]` / `none`). -/
def mockTranscriptions : Fin 2 → Transcription
  | 0 =>
    { text := "Welcome to this comprehensive demonstration of Intervu.AI for Hackademia. Today we'll be exploring the innovative features that make this platform revolutionary in the recruitment space. The system leverages cutting-edge artificial intelligence to transform how interviews are conducted and evaluated. Starting with the dashboard, you can see real-time analytics and comprehensive performance metrics that provide insights into candidate responses. Our platform integrates multiple advanced technologies to deliver an exceptional user experience for both recruiters and candidates. The AI-powered question generation ensures relevant and fair assessment across different roles and industries. We've implemented sophisticated natural language processing algorithms that analyze candidate responses in real-time, providing detailed insights into communication skills, technical knowledge, and cultural fit. The system's adaptive learning capabilities mean it continuously improves its assessment accuracy based on successful hiring outcomes."
      confidence := 94
      language := "en"
      duration := 68
      segments :=
        [ ⟨0, 12, "Welcome to this comprehensive demonstration of Intervu.AI for Hackademia."⟩,
          ⟨12, 25, "Today we'll be exploring the innovative features that make this platform revolutionary in the recruitment space."⟩,
          ⟨25, 40, "The system leverages cutting-edge artificial intelligence to transform how interviews are conducted and evaluated."⟩,
          ⟨40, 55, "Starting with the dashboard, you can see real-time analytics and comprehensive performance metrics."⟩,
          ⟨55, 68, "Our platform integrates multiple advanced technologies to deliver an exceptional user experience."⟩ ]
      words := []
      audioCloudinaryUrl := none
      audioCloudinaryPublicId := none }
  | 1 =>
    { text := "This video showcases the development journey of Intervu.AI, our revolutionary interview platform designed specifically for Hackademia participants. The project represents months of dedicated research and development by our talented engineering team. We've created an intelligent interview system that harnesses the power of artificial intelligence to enhance and streamline the recruitment process. The platform features automated question generation tailored to specific job roles, real-time candidate assessment using advanced machine learning algorithms, and comprehensive analytics that provide actionable insights for hiring managers. Our primary goal was to develop a solution that benefits both recruiters and job candidates by making the interview process more efficient, fair, and data-driven. The user interface has been meticulously designed with intuitive navigation, allowing recruiters to set up interviews quickly while providing candidates with a comfortable and user-friendly testing environment."
      confidence := 92
      language := "en"
      duration := 72
      segments :=
        [ ⟨0, 15, "This video showcases the development journey of Intervu.AI, our revolutionary interview platform designed specifically for Hackademia participants."⟩,
          ⟨15, 30, "The project represents months of dedicated research and development by our talented engineering team."⟩,
          ⟨30, 45, "We've created an intelligent interview system that harnesses the power of artificial intelligence to enhance and streamline the recruitment process."⟩,
          ⟨45, 60, "The platform features automated question generation tailored to specific job roles, real-time candidate assessment using advanced machine learning algorithms."⟩,
          ⟨60, 72, "Our primary goal was to develop a solution that benefits both recruiters and job candidates by making the interview process more efficient, fair, and data-driven."⟩ ]
      words := []
      audioCloudinaryUrl := none
      audioCloudinaryPublicId := none }

/-- `generateEnhancedMockTranscription`: returns one of the two fixed mock
transcriptions at a random index (`Math.floor(Math.random() * 2)`); the
random draw is the explicit argument `r`. -/
def generateEnhancedMockTranscription (r : Fin 2) : Transcription :=
  mockTranscriptions r

/-- Oracle environment for one `transcribeVideo` call: whether the Groq
client is configured, the random mock index, and the outcomes of the four
external operation chains the adapter awaits (each already folded through
its own `retryWithBackoff` wrapper). -/
structure TranscribeEnv where
  isGroqAvailable : Bool
  mockChoice : Fin 2
  extractOutcome : Except String AudioData
  directOutcome : Except String ProviderTranscription
  fileOutcome : Except String ProviderTranscription
  fallbackExtractOutcome : Except String AudioData
deriving Repr

/-- Assembly of the object returned on a successful provider
transcription: text verbatim, fixed confidence `0.95`, defaulted language
and duration, and the derived audio blob pointers. -/
def providerResult (t : ProviderTranscription) (audio : AudioData) : Transcription :=
  { text := t.text
    confidence := 95
    language := t.language.getD "en"
    duration := t.duration.getD 0
    segments := t.segments
    words := t.words
    audioCloudinaryUrl := some audio.cloudinaryUrl
    audioCloudinaryPublicId := some audio.cloudinaryPublicId }

/-- The throwing body of `transcribeVideo` once Groq is available: extract
audio (retried), then try the direct-URL transcription; on its failure try
the download-and-temp-file method; rethrow only if that fails too. -/
def transcribeAttempt (env : TranscribeEnv) : Except String Transcription :=
  match env.extractOutcome with
  | .error e => .error e
  | .ok audio =>
    match env.directOutcome with
    | .ok t => .ok (providerResult t audio)
    | .error _ =>
      match env.fileOutcome with
      | .ok t => .ok (providerResult t audio)
      | .error e => .error e

/-- `transcribeVideo`: with Groq unconfigured, immediately the random mock;
otherwise the attempt chain, whose failure is caught and replaced by the
mock, enriched with the audio pointers when a second extraction succeeds.
The function never rejects. -/
def transcribeVideo (env : TranscribeEnv) : Transcription :=
  if env.isGroqAvailable = false then generateEnhancedMockTranscription env.mockChoice
  else
    match transcribeAttempt env with
    | .ok t => t
    | .error _ =>
      let mock := generateEnhancedMockTranscription env.mockChoice
      match env.fallbackExtractOutcome with
      | .ok audio =>
        { mock with
            audioCloudinaryUrl := some audio.cloudinaryUrl
            audioCloudinaryPublicId := some audio.cloudinaryPublicId }
      | .error _ => mock

/-! ## Media record (`Video` model)

Mongoose document setters are modelled as plain object assignment and
`video.save()` as succeeding, i.e. the in-memory record is the persisted
record; persistence failures are an external-collaborator concern kept
outside the model.  Sub-analysis payload confidences are floating-point in
the source and are omitted: no claim mentions them. -/

/-- One speaker-diarization utterance. -/
structure SpeakerSeg where
  speaker : String
  start : Nat
  stop : Nat
  text : String
deriving DecidableEq, Repr

/-- One sentiment-timeline point; the score is in thousandths of the
source's [-1, 1] float. -/
structure SentimentPoint where
  timestamp : Nat
  score : Int
  label : String
deriving DecidableEq, Repr

/-- One topic chapter. -/
structure TopicChapter where
  title : String
  startTime : Nat
  stopTime : Nat
  summary : String
deriving DecidableEq, Repr

/-- One extracted keyword with its occurrence timestamps. -/
structure Keyword where
  phrase : String
  timestamps : List Nat
deriving DecidableEq, Repr

/-- Status of the highlight reel
(`pending | processing | ready | failed`). -/
inductive ReelStatus where
  | pending
  | processing
  | ready
  | failed
deriving DecidableEq, Repr

/-- One selected highlight segment. -/
structure ReelSegment where
  start : Nat
  stop : Nat
  phrase : String
deriving DecidableEq, Repr

/-- The `insights.highlightReel` subdocument. -/
structure HighlightReel where
  status : ReelStatus
  url : Option String
  segments : List ReelSegment
deriving DecidableEq, Repr

/-- The schema default for `highlightReel` (`status: 'pending'`). -/
def defaultHighlightReel : HighlightReel :=
  { status := .pending, url := none, segments := [] }

/-- The `apiKeysUsed` stamp `runMultiModalInsights` records. -/
structure ApiKeysUsed where
  assemblyAI : Bool
  huggingFace : Bool
  groq : Bool
  openAI : Bool
deriving DecidableEq, Repr

/-- The `video.insights` subdocument, including the extra bookkeeping
fields `runMultiModalInsights` writes (absent before the stage runs,
hence `Option`). -/
structure Insights where
  speakerDiarization : List SpeakerSeg
  sentimentTimeline : List SentimentPoint
  topicChapters : List TopicChapter
  keywords : List Keyword
  highlightReel : HighlightReel
  processingStatus : Option Status
  error : Option String
  apiKeysUsed : Option ApiKeysUsed
  hasTranscription : Option Bool
  hasAudioUrl : Option Bool
deriving DecidableEq, Repr

/-- The `video.processing.errors` map (one slot per stage that records
error messages). -/
structure ProcessingErrors where
  transcription : Option String
  aiAnalysis : Option String
deriving DecidableEq, Repr

/-- The `video.processing` subdocument. -/
structure ProcessingInfo where
  status : Status
  transcriptionStatus : Status
  aiAnalysisStatus : Status
  insightsStatus : Status
  error : Option String
  startedAt : Option Nat
  completedAt : Option Nat
  insightsProgress : Nat
  errors : ProcessingErrors
deriving DecidableEq, Repr

/-- The `video.transcription` subdocument; `text` is nullable. -/
structure TranscriptField where
  text : Option String
  confidence : Nat
  language : String
  duration : Nat
  segments : List Segment
  words : List Word
  audioCloudinaryUrl : Option String
  audioCloudinaryPublicId : Option String
  processedAt : Option Nat
deriving DecidableEq, Repr

/-- One `(name, confidence)` tag of `aiAnalysis.tags`; the float
confidence is omitted. -/
structure ATag where
  name : String
deriving DecidableEq, Repr

/-- The `video.aiAnalysis` subdocument (objects, emotions and their float
payloads omitted: no claim mentions them). -/
structure AiAnalysis where
  tags : List ATag
  summary : Option String
  themes : List String
  processedAt : Option Nat
deriving DecidableEq, Repr

/-- The media record, restricted to the fields the processing pipeline,
deletion and the claims touch. -/
structure Video where
  id : String
  title : String
  description : String
  cloudinaryUrl : String
  cloudinaryPublicId : String
  thumbnail : Option String
  audioCloudinaryUrl : Option String
  audioCloudinaryPublicId : Option String
  transcription : TranscriptField
  aiAnalysis : AiAnalysis
  tags : List String
  processing : ProcessingInfo
  insights : Insights
deriving DecidableEq, Repr

/-- JavaScript truthiness of a nullable string (`null` and `""` are
falsy). -/
def optTruthy : Option String → Bool
  | none => false
  | some s => s ≠ ""

/-- `[...new Set(l)]`: deduplication keeping the first occurrence of each
element, in order. -/
def jsSetDedup (l : List String) : List String :=
  l.foldl (fun acc x => if x ∈ acc then acc else acc ++ [x]) []

/-! ## Insights fan-out (insightsService `runMultiModalInsights`) -/

/-- Oracle environment for one insights run: which provider keys are
configured and what each sub-analysis call resolves or rejects with. -/
structure InsightsEnv where
  assemblyKey : Bool
  hfKey : Bool
  groqKey : Bool
  openaiKey : Bool
  diarizationOutcome : Except String (List SpeakerSeg)
  sentimentOutcome : Except String (List SentimentPoint)
  topicsOutcome : Except String (List TopicChapter)
  keywordsOutcome : Except String (List Keyword)
  now : Nat
deriving Repr

/-- The per-sub-analysis `try`/`catch`: a rejected sub-analysis is
recorded as the empty list. -/
def caughtOrEmpty : Except String (List α) → List α
  | .ok l => l
  | .error _ => []

/-- Guard of sub-analysis 1: `video.transcription?.audioCloudinaryUrl &&
process.env.ASSEMBLYAI_API_KEY`. -/
def diarizationAttempted (env : InsightsEnv) (v : Video) : Bool :=
  optTruthy v.transcription.audioCloudinaryUrl && env.assemblyKey

/-- Guard of sub-analysis 2: `video.transcription?.segments?.length > 0 &&
process.env.HF_API_KEY`. -/
def sentimentAttempted (env : InsightsEnv) (v : Video) : Bool :=
  decide (0 < v.transcription.segments.length) && env.hfKey

/-- Guard of sub-analyses 3 and 4: `video.transcription?.text &&
(process.env.OPENAI_API_KEY || process.env.GROQ_API_KEY)`. -/
def textAnalysisAttempted (env : InsightsEnv) (v : Video) : Bool :=
  optTruthy v.transcription.text && (env.openaiKey || env.groqKey)

/-- `runMultiModalInsights`: marks the insights object processing, runs
each guarded sub-analysis with its own catch-to-empty, then replaces
`video.insights` with the four results, `processingStatus: 'completed'`
and the bookkeeping stamps.  (The replacement object carries no
`highlightReel`; the schema default `pending` reel is what the cast
document holds afterwards.)  The outer catch also ends in
`processingStatus: 'completed'`, so the function is total either way. -/
def runMultiModalInsights (env : InsightsEnv) (v : Video) : Video :=
  let diar :=
    if diarizationAttempted env v then caughtOrEmpty env.diarizationOutcome else []
  let sent :=
    if sentimentAttempted env v then caughtOrEmpty env.sentimentOutcome else []
  let topics :=
    if textAnalysisAttempted env v then caughtOrEmpty env.topicsOutcome else []
  let keys :=
    if textAnalysisAttempted env v then caughtOrEmpty env.keywordsOutcome else []
  { v with
      insights :=
        { speakerDiarization := diar
          sentimentTimeline := sent
          topicChapters := topics
          keywords := keys
          highlightReel := defaultHighlightReel
          processingStatus := some .completed
          error := none
          apiKeysUsed := some
            { assemblyAI := env.assemblyKey
              huggingFace := env.hfKey
              groq := env.groqKey
              openAI := env.openaiKey }
          hasTranscription := some (optTruthy v.transcription.text)
          hasAudioUrl := some (optTruthy v.transcription.audioCloudinaryUrl) } }

/-! ## Highlight reel (insightsService `generateHighlightReel`) -/

/-- Oracle environment for one highlight-reel run: the outcome of reading
the rendered clip (in the source this step references an `fs` binding the
module never imports, so at run time it lands in the error case) and of
the Cloudinary upload, which resolves with the clip's URL. -/
structure ReelEnv where
  readOutcome : Except String Unit
  uploadOutcome : Except String String
deriving Repr

/-- The 10-second highlight segments derived from the keyword
timestamps. -/
def reelSegments (v : Video) : List ReelSegment :=
  v.insights.keywords.flatMap fun k =>
    k.timestamps.map fun ts => { start := ts, stop := ts + 10, phrase := k.phrase }

/-- The Cloudinary public id the highlight clip is uploaded under
(`highlight_${video._id}`). -/
def highlightPublicId (v : Video) : String :=
  "highlight_" ++ v.id

/-- `generateHighlightReel`: on success replaces `insights.highlightReel`
with `status: 'ready'`, the upload URL and the segments; any thrown error
is caught and only `status: 'failed'` is written.  The second component is
the list of status values written to `highlightReel.status` during the
run, in order. -/
def generateHighlightReel (env : ReelEnv) (v : Video) : Video × List ReelStatus :=
  match env.readOutcome, env.uploadOutcome with
  | .ok _, .ok url =>
    ({ v with
        insights.highlightReel :=
          { status := .ready, url := some url, segments := reelSegments v } },
      [.ready])
  | _, _ =>
    ({ v with insights.highlightReel.status := .failed }, [.failed])

/-- The environment of every shipped `generateHighlightReel` run: the `fs`
binding the read goes through is never imported by the module, so
evaluating the await operand throws a ReferenceError, and the call
deterministically takes the catch branch. -/
def reelEnvFail : ReelEnv :=
  { readOutcome := .error "fs is not defined", uploadOutcome := .error "unused" }

/-- The synchronous prefix of the un-awaited `generateHighlightReel(video)`
call: an async function runs synchronously until its first suspension, and
as shipped the ReferenceError on the never-imported `fs` is thrown while
evaluating the await operand, so the catch's
`highlightReel.status = 'failed'` write hits the shared record before
control returns to the caller; only the catch's `save` is deferred (and is
modelled as succeeding). -/
def generateHighlightReelSync (v : Video) : Video :=
  (generateHighlightReel reelEnvFail v).1

/-! ## `Video` model methods -/

/-- `video.updateProcessingStatus(status, error = null)`: sets the
aggregate status; records the error only when truthy; stamps `startedAt`
on the first transition to processing and `completedAt` on reaching
completed or failed. -/
def updateProcessingStatus (v : Video) (status : Status) (error : Option String)
    (now : Nat) : Video :=
  let p := { v.processing with status := status }
  let p :=
    if optTruthy error then { p with error := error } else p
  let p :=
    if status = .processing ∧ p.startedAt = none then { p with startedAt := some now }
    else p
  let p :=
    if status = .completed ∨ status = .failed then { p with completedAt := some now }
    else p
  { v with processing := p }

/-- `video.updateTranscription(transcriptionData)`: overwrites the
transcription subdocument with the (complete) data object, mirrors the
audio blob pointers at video level when present, and sets the stage status
to completed. -/
def updateTranscription (v : Video) (d : Transcription) (now : Nat) : Video :=
  { v with
      transcription :=
        { text := some d.text
          confidence := d.confidence
          language := d.language
          duration := d.duration
          segments := d.segments
          words := d.words
          audioCloudinaryUrl := d.audioCloudinaryUrl
          audioCloudinaryPublicId := d.audioCloudinaryPublicId
          processedAt := some now }
      audioCloudinaryUrl :=
        if optTruthy d.audioCloudinaryUrl then d.audioCloudinaryUrl
        else v.audioCloudinaryUrl
      audioCloudinaryPublicId :=
        if optTruthy d.audioCloudinaryPublicId then d.audioCloudinaryPublicId
        else v.audioCloudinaryPublicId
      processing.transcriptionStatus := .completed }

/-- Extraction of a tag name inside `updateAiAnalysis`: the stored tags
are `(name, confidence)` objects, kept when `tag.name` is truthy
(`tag && typeof tag === 'object' && tag.name`). -/
def extractTag (t : ATag) : Option String :=
  if t.name = "" then none else some t.name

/-- `video.updateAiAnalysis(analysisData)`: overwrites the analysis
subdocument, sets the stage status to completed, and merges the truthy tag
names into `video.tags` without duplicates. -/
def updateAiAnalysis (v : Video) (tags : List ATag) (summary : String)
    (themes : List String) (now : Nat) : Video :=
  let extracted := tags.filterMap extractTag
  { v with
      aiAnalysis :=
        { tags := tags, summary := some summary, themes := themes
          processedAt := some now }
      processing.aiAnalysisStatus := .completed
      tags := jsSetDedup (v.tags ++ extracted) }

/-! ## Orchestrator (videoController `processVideoInBackground`) -/

/-- A duck-typed tag as the content-analysis provider may return it:
either a plain string or an object with an optional `name`. -/
inductive JsTag where
  | str (s : String)
  | obj (name : Option String)
deriving DecidableEq, Repr

/-- The controller's per-tag normalization:
`typeof tag === 'string' ? tag : (tag.name || 'unknown')`. -/
def jsTagName : JsTag → String
  | .str s => s
  | .obj (some n) => if n = "" then "unknown" else n
  | .obj none => "unknown"

/-- What the content-analysis adapter resolves with (it never rejects:
every failure path inside `analyzeVideoContent` falls back to the mock
analysis).  Objects, emotions and confidences are omitted: no claim
mentions them. -/
structure RawAnalysis where
  tags : List JsTag
  summary : Option String
  themes : Option (List String)
deriving DecidableEq, Repr

/-- Oracle environment for one orchestrator run: the clock, whether the
5-minute transcription timeout wins the race, the transcription adapter's
environment, and what the (total) analysis and tag-generation adapters
resolve with, plus the insights environment. -/
structure PipelineEnv where
  now : Nat
  transcribeTimeout : Bool
  transcribe : TranscribeEnv
  analysisResult : RawAnalysis
  aiTags : List String
  insights : InsightsEnv
deriving Repr

/-- `Promise.race([transcribeVideo(...), timeoutPromise])`: the timeout
rejection or the adapter's resolution (the adapter itself never
rejects). -/
def transcriptionRace (env : PipelineEnv) : Except String Transcription :=
  if env.transcribeTimeout then .error "Transcription timeout after 5 minutes"
  else .ok (transcribeVideo env.transcribe)

/-- The controller's `transcriptionData` normalization of the resolved
object (the `|| defaults`; the adapter's object case). -/
def normalizeTranscription (t : Transcription) : Transcription :=
  { t with
      confidence := if t.confidence = 0 then 95 else t.confidence
      language := if t.language = "" then "en" else t.language }

/-- Step 1 of the orchestrator: mark the stage processing, await the race;
on resolution store the transcription and clear the stage's prior error;
on rejection set only this stage's status to failed and record the message
under `processing.errors.transcription`, then return normally. -/
def transcriptionStep (env : PipelineEnv) (v : Video) : Video :=
  let v := { v with processing.transcriptionStatus := .processing }
  match transcriptionRace env with
  | .ok t =>
    let v := updateTranscription v (normalizeTranscription t) env.now
    { v with
        processing.transcriptionStatus := .completed
        processing.errors.transcription := none }
  | .error msg =>
    { v with
        processing.transcriptionStatus := .failed
        processing.errors.transcription := some msg }

/-- Step 2 of the orchestrator: mark the stage processing, normalize the
analysis result, store it (which merges the analysis-derived tag names),
then merge the AI-generated tags (non-blank strings only) without
duplicates, mark the stage completed and clear its prior error.  With the
two adapters total and persistence succeeding this step has no failure
path. -/
def aiAnalysisStep (env : PipelineEnv) (v : Video) : Video :=
  let v := { v with processing.aiAnalysisStatus := .processing }
  let analysis := env.analysisResult
  let validatedTags : List ATag := analysis.tags.map fun t => { name := jsTagName t }
  let v := updateAiAnalysis v validatedTags
    (match analysis.summary with
      | some s => if s = "" then "AI analysis completed" else s
      | none => "AI analysis completed")
    (analysis.themes.getD ["general"]) env.now
  let cleanAiTags := env.aiTags.filter fun t => t.trim ≠ ""
  let v := { v with tags := jsSetDedup (v.tags ++ cleanAiTags) }
  { v with
      processing.aiAnalysisStatus := .completed
      processing.errors.aiAnalysis := none }

/-- Step 3 of the orchestrator: mark the insights stage processing at
progress 0, run the fan-out, mark it completed at progress 100.
`generateHighlightReel(video)` is then fired without `await`; its
synchronous prefix — as shipped, the ReferenceError on the never-imported
`fs` and the catch's `status = 'failed'` write — runs before control
returns to the orchestrator, so that write is part of this run; only the
detached continuation (the catch's `save`) is deferred. -/
def insightsStep (env : PipelineEnv) (v : Video) : Video :=
  let v :=
    { v with
        processing.insightsStatus := .processing
        processing.insightsProgress := 0 }
  let v := runMultiModalInsights env.insights v
  let v :=
    { v with
        processing.insightsStatus := .completed
        processing.insightsProgress := 100 }
  generateHighlightReelSync v

/-- `hasAnySuccess`: at least one of the transcription and content
analysis stages reached completed. -/
def hasAnySuccess (v : Video) : Bool :=
  decide (v.processing.transcriptionStatus = .completed)
    || decide (v.processing.aiAnalysisStatus = .completed)

/-- The final-status computation at the end of the orchestrator:
completed on any stage success, otherwise failed with the aggregated
error message, with `completedAt` stamped by `updateProcessingStatus`. -/
def finalizeProcessing (v : Video) (now : Nat) : Video :=
  if hasAnySuccess v then updateProcessingStatus v .completed none now
  else updateProcessingStatus v .failed (some "All processing steps failed") now

/-- `processVideoInBackground`: aggregate to processing (stamping
`startedAt`), the three sequential stages, then the final aggregate. -/
def processVideoInBackground (env : PipelineEnv) (v : Video) : Video :=
  let v := updateProcessingStatus v .processing none env.now
  let v := transcriptionStep env v
  let v := aiAnalysisStep env v
  let v := insightsStep env v
  finalizeProcessing v env.now

/-! ## Record deletion (videoController `deleteVideo`) -/

/-- Outcome of a `deleteVideo` request: the Cloudinary public ids whose
deletion was requested through the storage adapter, in order, and whether
the database record was deleted. -/
structure DeleteResult where
  issuedDeletes : List String
  dbDeleted : Bool
deriving DecidableEq, Repr

/-- `deleteVideo`: deletes the source video blob (not guarded — its
failure aborts the handler before the database delete), then the derived
audio blob when its public id is present (guarded, failures swallowed),
then the database record.  No other blob deletion is issued. -/
def deleteVideo (sourceDeleteOk : Bool) (v : Video) : DeleteResult :=
  if sourceDeleteOk then
    { issuedDeletes :=
        v.cloudinaryPublicId ::
          (match v.audioCloudinaryPublicId with
            | some a => [a]
            | none => [])
      dbDeleted := true }
  else { issuedDeletes := [v.cloudinaryPublicId], dbDeleted := false }

/-! ## Concrete fixtures

A freshly uploaded record (all stage statuses pending, no derived data)
and small oracle environments, used by the witnesses and
counterexamples. -/

/-- A pristine `processing` subdocument (all schema defaults). -/
def baseProcessing : ProcessingInfo :=
  { status := .pending
    transcriptionStatus := .pending
    aiAnalysisStatus := .pending
    insightsStatus := .pending
    error := none
    startedAt := none
    completedAt := none
    insightsProgress := 0
    errors := { transcription := none, aiAnalysis := none } }

/-- A pristine `insights` subdocument (all schema defaults). -/
def baseInsights : Insights :=
  { speakerDiarization := []
    sentimentTimeline := []
    topicChapters := []
    keywords := []
    highlightReel := defaultHighlightReel
    processingStatus := none
    error := none
    apiKeysUsed := none
    hasTranscription := none
    hasAudioUrl := none }

/-- A pristine `transcription` subdocument (all schema defaults). -/
def baseTranscript : TranscriptField :=
  { text := none
    confidence := 0
    language := "en"
    duration := 0
    segments := []
    words := []
    audioCloudinaryUrl := none
    audioCloudinaryPublicId := none
    processedAt := none }

/-- A freshly uploaded record. -/
def baseVideo : Video :=
  { id := "v1"
    title := "demo clip"
    description := "a demo"
    cloudinaryUrl := "https://cdn.example/v1.mp4"
    cloudinaryPublicId := "videos/v1"
    thumbnail := none
    audioCloudinaryUrl := none
    audioCloudinaryPublicId := none
    transcription := baseTranscript
    aiAnalysis := { tags := [], summary := none, themes := [], processedAt := none }
    tags := []
    processing := baseProcessing
    insights := baseInsights }

/-- A transcription-adapter environment with Groq unconfigured; the four
operation oracles are never consulted on that path. -/
def unconfiguredEnv0 : TranscribeEnv :=
  { isGroqAvailable := false
    mockChoice := 0
    extractOutcome := .error "unused"
    directOutcome := .error "unused"
    fileOutcome := .error "unused"
    fallbackExtractOutcome := .error "unused" }

/-- The same unconfigured environment with the other random draw. -/
def unconfiguredEnv1 : TranscribeEnv :=
  { unconfiguredEnv0 with mockChoice := 1 }

/-- An insights environment with every provider key configured and every
sub-analysis succeeding with one sample value. -/
def insightsEnvAll : InsightsEnv :=
  { assemblyKey := true
    hfKey := true
    groqKey := true
    openaiKey := true
    diarizationOutcome := .ok [{ speaker := "A", start := 0, stop := 5, text := "hi" }]
    sentimentOutcome := .ok [{ timestamp := 0, score := 400, label := "POSITIVE" }]
    topicsOutcome := .ok [{ title := "Intro", startTime := 0, stopTime := 30, summary := "s" }]
    keywordsOutcome := .ok [{ phrase := "hello", timestamps := [0] }]
    now := 50 }

/-- An orchestrator environment whose transcription race is won by the
5-minute timeout. -/
def timeoutPipelineEnv : PipelineEnv :=
  { now := 100
    transcribeTimeout := true
    transcribe := unconfiguredEnv0
    analysisResult := { tags := [], summary := none, themes := none }
    aiTags := []
    insights := insightsEnvAll }

/-- The backoff durations of the first `n` sleeps with base delay `b`. -/
def backoffSleeps (b n : Nat) : List Nat :=
  (List.range n).map fun j => b * 2 ^ j

/-- A wrapped function that throws a retryable error on every attempt
before the third and succeeds on the third. -/
def twoTransientThenSuccess : Nat → CallOutcome Nat := fun n =>
  if n = 3 then .success 7 else .failure true "ETIMEDOUT"

/-- A record that has been through a successful transcription: non-empty
text, segments and a derived audio blob. -/
def richVideo : Video :=
  { baseVideo with
      audioCloudinaryUrl := some "https://cdn.example/v1.mp3"
      audioCloudinaryPublicId := some "audio/v1"
      transcription :=
        { baseTranscript with
            text := some "hello world"
            segments := [⟨0, 2, "hello world"⟩]
            audioCloudinaryUrl := some "https://cdn.example/v1.mp3"
            audioCloudinaryPublicId := some "audio/v1" } }

/-- A record that already carries the tag `"AI"`. -/
def taggedVideo : Video :=
  { baseVideo with tags := ["AI"] }

/-- An orchestrator environment (timeout off, Groq mocks) whose content
analysis yields the single duck-typed string tag `"ai"` and no AI tags. -/
def lowercaseTagEnv : PipelineEnv :=
  { timeoutPipelineEnv with
      transcribeTimeout := false
      analysisResult := { tags := [JsTag.str "ai"], summary := none, themes := none } }

/-- A record owning a ready highlight reel and a derived audio blob. -/
def reelVideo : Video :=
  { baseVideo with
      audioCloudinaryPublicId := some "audio/v1"
      insights :=
        { baseInsights with
            keywords := [{ phrase := "hello", timestamps := [0] }]
            highlightReel :=
              { status := .ready
                url := some "https://cdn.example/highlight_v1.mp4"
                segments := [] } } }

/-- A highlight-reel environment where read and upload both succeed (the
shape of the written-but-dead success branch). -/
def reelEnvOk : ReelEnv :=
  { readOutcome := .ok (), uploadOutcome := .ok "https://cdn.example/highlight_v1.mp4" }

/-- A transcription environment where Groq is configured and the direct
provider call resolves with an empty transcript text. -/
def emptyTextEnv : TranscribeEnv :=
  { isGroqAvailable := true
    mockChoice := 0
    extractOutcome := .ok { cloudinaryUrl := "https://cdn.example/a.mp3", cloudinaryPublicId := "audio/a" }
    directOutcome := .ok { text := "", language := none, duration := none, segments := [], words := [] }
    fileOutcome := .error "unused"
    fallbackExtractOutcome := .error "unused" }

/-- A transcription environment where Groq is configured but audio
extraction (and its fallback) fail, so the whole attempt chain throws. -/
def extractionFailEnv : TranscribeEnv :=
  { isGroqAvailable := true
    mockChoice := 1
    extractOutcome := .error "ECONNRESET"
    directOutcome := .error "unused"
    fileOutcome := .error "unused"
    fallbackExtractOutcome := .error "ECONNRESET" }

/-! ## Helper lemmas -/

theorem jsSetDedup_loop_mem (l : List String) :
    ∀ (acc : List String) (x : String),
      x ∈ l.foldl (fun acc x => if x ∈ acc then acc else acc ++ [x]) acc ↔
        x ∈ acc ∨ x ∈ l := by
  induction l with
  | nil => simp
  | cons a t ih =>
    intro acc x
    by_cases ha : a ∈ acc
    · simp only [List.foldl_cons, if_pos ha, ih, List.mem_cons]
      constructor
      · rintro (hx | hx)
        · exact Or.inl hx
        · exact Or.inr (Or.inr hx)
      · rintro (hx | hx | hx)
        · exact Or.inl hx
        · exact Or.inl (hx ▸ ha)
        · exact Or.inr hx
    · simp only [List.foldl_cons, if_neg ha, ih, List.mem_append, List.mem_singleton,
        List.mem_cons]
      tauto

theorem jsSetDedup_mem (l : List String) (x : String) :
    x ∈ jsSetDedup l ↔ x ∈ l := by
  unfold jsSetDedup
  rw [jsSetDedup_loop_mem]
  simp

theorem jsSetDedup_loop_nodup (l : List String) :
    ∀ acc : List String, acc.Nodup →
      (l.foldl (fun acc x => if x ∈ acc then acc else acc ++ [x]) acc).Nodup := by
  induction l with
  | nil => intro acc h; simpa using h
  | cons a t ih =>
    intro acc hacc
    simp only [List.foldl_cons]
    by_cases ha : a ∈ acc
    · rw [if_pos ha]
      exact ih acc hacc
    · rw [if_neg ha]
      refine ih (acc ++ [a]) ?_
      simp [List.nodup_append, hacc, ha]

theorem jsSetDedup_nodup (l : List String) : (jsSetDedup l).Nodup := by
  unfold jsSetDedup
  exact jsSetDedup_loop_nodup l [] List.nodup_nil

theorem retryLoop_ok_spec (outcomes : Nat → CallOutcome α) (maxRetries baseDelay : Nat)
    (v : α) :
    ∀ m fuel a : Nat, 1 ≤ a → a + m ≤ maxRetries → m < fuel →
      (∀ i, a ≤ i → i < a + m → ∃ msg, outcomes i = CallOutcome.failure true msg) →
      outcomes (a + m) = CallOutcome.success v →
      retryLoop outcomes maxRetries baseDelay fuel a =
        ⟨Except.ok v, m + 1, (List.range m).map fun j => baseDelay * 2 ^ (a - 1 + j)⟩ := by
  intro m
  induction m with
  | zero =>
    intro fuel a ha hle hfuel _ hsucc
    match fuel, hfuel with
    | fuel + 1, _ =>
      rw [Nat.add_zero] at hsucc
      simp only [retryLoop]
      rw [if_pos (by omega : a ≤ maxRetries), hsucc]
      simp
  | succ m ih =>
    intro fuel a ha hle hfuel hfail hsucc
    match fuel, hfuel with
    | fuel + 1, _ =>
      obtain ⟨msg, hmsg⟩ := hfail a (le_refl a) (by omega)
      have hrec := ih fuel (a + 1) (by omega) (by omega) (by omega)
        (fun i h1 h2 => hfail i (by omega) (by omega))
        (by rw [show a + 1 + m = a + (m + 1) by omega]; exact hsucc)
      simp only [retryLoop]
      rw [if_pos (by omega : a ≤ maxRetries), hmsg]
      dsimp only
      rw [if_neg (by omega : ¬ a = maxRetries)]
      simp only [Bool.true_eq_false, if_false, hrec]
      refine congrArg₂ (RetryResult.mk (Except.ok v)) (by omega) ?_
      rw [List.range_succ_eq_map]
      simp only [List.map_cons, List.map_map]
      refine congrArg₂ List.cons (by rw [Nat.add_zero]) ?_
      apply List.map_congr_left
      intro j _
      simp only [Function.comp_apply, Nat.succ_eq_add_one]
      have he : a + 1 - 1 + j = a - 1 + (j + 1) := by omega
      rw [he]

theorem updateProcessingStatus_preserves (v : Video) (s : Status)
    (e : Option String) (now : Nat) :
    (updateProcessingStatus v s e now).processing.transcriptionStatus =
        v.processing.transcriptionStatus
    ∧ (updateProcessingStatus v s e now).processing.aiAnalysisStatus =
        v.processing.aiAnalysisStatus
    ∧ (updateProcessingStatus v s e now).processing.insightsStatus =
        v.processing.insightsStatus
    ∧ (updateProcessingStatus v s e now).processing.errors = v.processing.errors
    ∧ (updateProcessingStatus v s e now).transcription = v.transcription
    ∧ (updateProcessingStatus v s e now).tags = v.tags
    ∧ (updateProcessingStatus v s e now).insights = v.insights := by
  dsimp only [updateProcessingStatus]
  split <;> split <;> split <;> simp

theorem finalizeProcessing_preserves (v : Video) (now : Nat) :
    (finalizeProcessing v now).processing.transcriptionStatus =
        v.processing.transcriptionStatus
    ∧ (finalizeProcessing v now).processing.aiAnalysisStatus =
        v.processing.aiAnalysisStatus
    ∧ (finalizeProcessing v now).processing.insightsStatus =
        v.processing.insightsStatus := by
  dsimp only [finalizeProcessing]
  split
  · exact ⟨(updateProcessingStatus_preserves v .completed none now).1,
      (updateProcessingStatus_preserves v .completed none now).2.1,
      (updateProcessingStatus_preserves v .completed none now).2.2.1⟩
  · exact ⟨(updateProcessingStatus_preserves v _ _ now).1,
      (updateProcessingStatus_preserves v _ _ now).2.1,
      (updateProcessingStatus_preserves v _ _ now).2.2.1⟩

/-! ## Claim theorems -/

/-- C1: whenever a pipeline run reaches the final-status computation, the
aggregate status is set to completed iff at least one of the transcription
and content-analysis stage statuses is completed; otherwise it is set to
failed together with the aggregated error message; `completedAt` is set in
either case. -/
theorem final_aggregate_status (v : Video) (now : Nat) :
    ((finalizeProcessing v now).processing.status = Status.completed ↔
      (v.processing.transcriptionStatus = Status.completed ∨
        v.processing.aiAnalysisStatus = Status.completed))
    ∧ ((finalizeProcessing v now).processing.status = Status.completed ∨
        ((finalizeProcessing v now).processing.status = Status.failed ∧
          (finalizeProcessing v now).processing.error =
            some "All processing steps failed"))
    ∧ (finalizeProcessing v now).processing.completedAt = some now := by
  cases hb : hasAnySuccess v with
  | true =>
    have hor : v.processing.transcriptionStatus = Status.completed ∨
        v.processing.aiAnalysisStatus = Status.completed := by
      simpa [hasAnySuccess] using hb
    simp [finalizeProcessing, hb, updateProcessingStatus, optTruthy, hor]
  | false =>
    have hnor : ¬ (v.processing.transcriptionStatus = Status.completed ∨
        v.processing.aiAnalysisStatus = Status.completed) := by
      have hand : ¬ v.processing.transcriptionStatus = Status.completed ∧
          ¬ v.processing.aiAnalysisStatus = Status.completed := by
        simpa [hasAnySuccess] using hb
      tauto
    simp [finalizeProcessing, hb, updateProcessingStatus, optTruthy, hnor]

/-- C2: a rejected transcription race (retries exhausted or the 5-minute
timeout) sets only the transcription stage's status to failed and records
its message under `processing.errors.transcription`; every other part of
the record is untouched by the handler, and the orchestrator still runs
the content-analysis stage to completion. -/
theorem transcription_failure_isolated (env : PipelineEnv) (v : Video) (msg : String)
    (h : transcriptionRace env = Except.error msg) :
    (transcriptionStep env v).processing.transcriptionStatus = Status.failed
    ∧ (transcriptionStep env v).processing.errors.transcription = some msg
    ∧ (transcriptionStep env v).processing.aiAnalysisStatus =
        v.processing.aiAnalysisStatus
    ∧ (transcriptionStep env v).processing.insightsStatus =
        v.processing.insightsStatus
    ∧ (transcriptionStep env v).processing.status = v.processing.status
    ∧ (transcriptionStep env v).processing.errors.aiAnalysis =
        v.processing.errors.aiAnalysis
    ∧ (transcriptionStep env v).transcription = v.transcription
    ∧ (transcriptionStep env v).tags = v.tags
    ∧ (transcriptionStep env v).insights = v.insights
    ∧ (processVideoInBackground env v).processing.aiAnalysisStatus =
        Status.completed := by
  have hstep : ∀ w : Video, transcriptionStep env w =
      { w with
          processing.transcriptionStatus := Status.failed
          processing.errors.transcription := some msg } := by
    intro w
    simp only [transcriptionStep, h]
  refine ⟨?_, ?_, ?_, ?_, ?_, ?_, ?_, ?_, ?_, ?_⟩
  all_goals simp only [hstep, processVideoInBackground, finalizeProcessing]
  all_goals rfl

/-- C4, as the claim states it, is false: with `baseDelay = 0` (allowed by
the claim's universal quantification over `baseDelay`) a transient failure
on attempts 1 and 2 followed by success on attempt 3 performs 2 sleeps of
0 ms each, which are not strictly increasing, although the call count and
the returned result match the claim. -/
theorem retry_backoff_not_strictly_increasing :
    twoTransientThenSuccess 1 = CallOutcome.failure true "ETIMEDOUT"
    ∧ twoTransientThenSuccess 2 = CallOutcome.failure true "ETIMEDOUT"
    ∧ twoTransientThenSuccess 3 = CallOutcome.success 7
    ∧ (retryWithBackoff twoTransientThenSuccess 3 0).result = Except.ok 7
    ∧ (retryWithBackoff twoTransientThenSuccess 3 0).calls = 3
    ∧ (retryWithBackoff twoTransientThenSuccess 3 0).sleeps = [0, 0]
    ∧ ¬ (retryWithBackoff twoTransientThenSuccess 3 0).sleeps.Pairwise (· < ·) := by
  refine ⟨rfl, rfl, rfl, rfl, rfl, rfl, fun hp => ?_⟩
  rw [show (retryWithBackoff twoTransientThenSuccess 3 0).sleeps = [0, 0] from rfl,
    List.pairwise_cons] at hp
  exact absurd (hp.1 0 (List.mem_singleton.mpr rfl)) (by omega)

/-- C4 (amended): for every `maxAttempts ≥ 1`, if the wrapped function
throws retryable errors on attempts `1..k-1` and succeeds on attempt
`k ≤ maxAttempts`, the retry executor returns the successful result,
invokes the function exactly `k` times, and performs exactly `k-1` sleeps
of `baseDelay * 2^(attempt-1)` ms, which are strictly increasing whenever
`baseDelay > 0` (the claim asserted strict increase for every `baseDelay`,
which fails at `baseDelay = 0`). -/
theorem retry_transient_then_success {α : Type} (outcomes : Nat → CallOutcome α)
    (maxRetries baseDelay k : Nat) (v : α)
    (hk1 : 1 ≤ k) (hkm : k ≤ maxRetries)
    (hfail : ∀ i, 1 ≤ i → i < k → ∃ msg, outcomes i = CallOutcome.failure true msg)
    (hsucc : outcomes k = CallOutcome.success v) :
    retryWithBackoff outcomes maxRetries baseDelay =
      ⟨Except.ok v, k, backoffSleeps baseDelay (k - 1)⟩
    ∧ (0 < baseDelay → (backoffSleeps baseDelay (k - 1)).Pairwise (· < ·)) := by
  constructor
  · have h := retryLoop_ok_spec outcomes maxRetries baseDelay v (k - 1) (maxRetries + 1) 1
      (le_refl 1) (by omega) (by omega)
      (fun i h1 h2 => hfail i h1 (by omega))
      (by rw [show 1 + (k - 1) = k by omega]; exact hsucc)
    rw [retryWithBackoff, h]
    refine congrArg₂ (RetryResult.mk (Except.ok v)) (by omega) ?_
    unfold backoffSleeps
    apply List.map_congr_left
    intro j _
    norm_num
  · intro hb
    unfold backoffSleeps
    refine List.Pairwise.map _ (fun a b hab => ?_) (List.pairwise_lt_range _)
    exact mul_lt_mul_of_pos_left (Nat.pow_lt_pow_right (by norm_num) hab) hb

/-- Witness for the amended C4: transient errors on attempts 1 and 2 and
success on attempt 3 with `maxAttempts = 3`, `baseDelay = 2000` yield the
result, 3 calls and the strictly increasing sleeps 2000 ms, 4000 ms. -/
theorem retry_transient_then_success_witness :
    (1 ≤ 3 ∧ 3 ≤ 3)
    ∧ retryWithBackoff twoTransientThenSuccess 3 2000 =
        ⟨Except.ok 7, 3, backoffSleeps 2000 2⟩
    ∧ (backoffSleeps 2000 2).Pairwise (· < ·)
    ∧ backoffSleeps 2000 2 = [2000, 4000] := by
  have h := retry_transient_then_success twoTransientThenSuccess 3 2000 3 7
    (by omega) (by omega)
    (fun i h1 h2 => ⟨"ETIMEDOUT", by
      unfold twoTransientThenSuccess
      rw [if_neg (by omega)]⟩)
    (by unfold twoTransientThenSuccess; rfl)
  exact ⟨⟨by omega, by omega⟩, h.1, h.2 (by omega), rfl⟩

/-- Witness for C2: the 5-minute timeout rejection at the fresh record. -/
theorem transcription_failure_isolated_witness :
    transcriptionRace timeoutPipelineEnv =
      Except.error "Transcription timeout after 5 minutes"
    ∧ ((transcriptionStep timeoutPipelineEnv baseVideo).processing.transcriptionStatus =
          Status.failed
        ∧ (transcriptionStep timeoutPipelineEnv baseVideo).processing.errors.transcription =
            some "Transcription timeout after 5 minutes"
        ∧ (transcriptionStep timeoutPipelineEnv baseVideo).processing.aiAnalysisStatus =
            baseVideo.processing.aiAnalysisStatus
        ∧ (transcriptionStep timeoutPipelineEnv baseVideo).processing.insightsStatus =
            baseVideo.processing.insightsStatus
        ∧ (transcriptionStep timeoutPipelineEnv baseVideo).processing.status =
            baseVideo.processing.status
        ∧ (transcriptionStep timeoutPipelineEnv baseVideo).processing.errors.aiAnalysis =
            baseVideo.processing.errors.aiAnalysis
        ∧ (transcriptionStep timeoutPipelineEnv baseVideo).transcription =
            baseVideo.transcription
        ∧ (transcriptionStep timeoutPipelineEnv baseVideo).tags = baseVideo.tags
        ∧ (transcriptionStep timeoutPipelineEnv baseVideo).insights = baseVideo.insights
        ∧ (processVideoInBackground timeoutPipelineEnv baseVideo).processing.aiAnalysisStatus =
            Status.completed) :=
  ⟨rfl, transcription_failure_isolated timeoutPipelineEnv baseVideo
    "Transcription timeout after 5 minutes" rfl⟩

/-- C3: every insights run records all four sub-analysis fields; each
field is a function of its own guard and its own call outcome only (so a
failure in one is recorded as the empty list for its own field and cannot
affect a sibling), a rejection is caught as the empty list, and both the
insights object and the orchestrator's insights stage status are marked
completed once all four have been processed. -/
theorem insights_fanout_isolated (env : InsightsEnv) (v : Video) :
    ((runMultiModalInsights env v).insights.speakerDiarization =
        if diarizationAttempted env v then caughtOrEmpty env.diarizationOutcome else [])
    ∧ ((runMultiModalInsights env v).insights.sentimentTimeline =
        if sentimentAttempted env v then caughtOrEmpty env.sentimentOutcome else [])
    ∧ ((runMultiModalInsights env v).insights.topicChapters =
        if textAnalysisAttempted env v then caughtOrEmpty env.topicsOutcome else [])
    ∧ ((runMultiModalInsights env v).insights.keywords =
        if textAnalysisAttempted env v then caughtOrEmpty env.keywordsOutcome else [])
    ∧ (runMultiModalInsights env v).insights.processingStatus = some Status.completed
    ∧ (∀ (β : Type) (msg : String),
        caughtOrEmpty (Except.error msg : Except String (List β)) = [])
    ∧ (∀ (penv : PipelineEnv) (w : Video),
        (insightsStep penv w).processing.insightsStatus = Status.completed) :=
  ⟨rfl, rfl, rfl, rfl, rfl, fun _ _ => rfl, fun _ _ => rfl⟩

/-- C5, as stated, is false on the code: when the transcription race is
lost to the timeout the record still holds no transcript text, yet the
orchestrator starts the insights stage unconditionally — it runs to
completion and itself records that no transcription was present. -/
theorem insights_stage_runs_without_transcript :
    baseVideo.transcription.text = none
    ∧ (processVideoInBackground timeoutPipelineEnv baseVideo).processing.transcriptionStatus =
        Status.failed
    ∧ (processVideoInBackground timeoutPipelineEnv baseVideo).transcription.text = none
    ∧ (processVideoInBackground timeoutPipelineEnv baseVideo).processing.insightsStatus =
        Status.completed
    ∧ (processVideoInBackground timeoutPipelineEnv baseVideo).insights.processingStatus =
        some Status.completed
    ∧ (processVideoInBackground timeoutPipelineEnv baseVideo).insights.hasTranscription =
        some false :=
  ⟨rfl, rfl, rfl, rfl, rfl, rfl⟩

/-- C5 (amended): the transcript gating sits on the individual
sub-analyses, not on the stage: topic segmentation and keyword extraction
run only when the record holds non-empty transcript text, sentiment only
when transcript segments exist, and diarization only when a derived audio
blob URL exists (with its provider key); the insights stage itself begins
and completes on every orchestrator run, transcript or not. -/
theorem insights_gating (env : InsightsEnv) (v : Video) :
    (diarizationAttempted env v = true →
      optTruthy v.transcription.audioCloudinaryUrl = true)
    ∧ (sentimentAttempted env v = true → 0 < v.transcription.segments.length)
    ∧ (textAnalysisAttempted env v = true → optTruthy v.transcription.text = true)
    ∧ (∀ penv : PipelineEnv,
        (processVideoInBackground penv v).processing.insightsStatus =
          Status.completed) := by
  refine ⟨?_, ?_, ?_, ?_⟩
  · intro h
    simp only [diarizationAttempted, Bool.and_eq_true] at h
    exact h.1
  · intro h
    simp only [sentimentAttempted, Bool.and_eq_true, decide_eq_true_eq] at h
    exact h.1
  · intro h
    simp only [textAnalysisAttempted, Bool.and_eq_true] at h
    exact h.1
  · intro penv
    simp only [processVideoInBackground]
    rw [(finalizeProcessing_preserves _ _).2.2]
    rfl

/-- C6, as stated, is false on the code: `generateHighlightReel` never
writes the `processing` reel status — from the schema-default `pending`
one successful run jumps straight to `ready` (the list of status writes of
the run is exactly `[ready]`), skipping the claimed intermediate
Processing state. -/
theorem highlight_reel_skips_processing :
    baseVideo.insights.highlightReel.status = ReelStatus.pending
    ∧ (generateHighlightReel reelEnvOk baseVideo).1.insights.highlightReel.status =
        ReelStatus.ready
    ∧ (generateHighlightReel reelEnvOk baseVideo).2 = [ReelStatus.ready]
    ∧ ReelStatus.processing ∉ (generateHighlightReel reelEnvOk baseVideo).2
    ∧ (generateHighlightReel reelEnvFail baseVideo).1.insights.highlightReel.status =
        ReelStatus.failed
    ∧ (generateHighlightReel reelEnvFail baseVideo).2 = [ReelStatus.failed]
    ∧ ReelStatus.processing ∉ (generateHighlightReel reelEnvFail baseVideo).2 := by
  refine ⟨rfl, rfl, rfl, ?_, rfl, rfl, ?_⟩ <;> decide

/-- C6 (amended): the highlight-reel status transitions directly from
Pending to Ready or Failed — no run ever writes the Processing value — and
the reel never influences the aggregate: the orchestrator's outcome is
identical for any two values of `highlightReel`; in the shipped program
the un-awaited reel generation fails synchronously (its `fs` binding is
never imported), so at the end of an orchestrator run the reel already
reads Failed while the aggregate is computed from the stage statuses
alone. -/
theorem highlight_reel_independent (env : ReelEnv) (v : Video)
    (penv : PipelineEnv) (hr hr' : HighlightReel) :
    ReelStatus.processing ∉ (generateHighlightReel env v).2
    ∧ ((generateHighlightReel env v).1.insights.highlightReel.status = ReelStatus.ready
        ∨ (generateHighlightReel env v).1.insights.highlightReel.status = ReelStatus.failed)
    ∧ processVideoInBackground penv { v with insights.highlightReel := hr } =
        processVideoInBackground penv { v with insights.highlightReel := hr' }
    ∧ (processVideoInBackground penv v).insights.highlightReel =
        { status := ReelStatus.failed, url := none, segments := [] } := by
  refine ⟨?_, ?_, ?_, ?_⟩
  · match env, v with
    | ⟨.ok _, .ok url⟩, v => simp [generateHighlightReel]
    | ⟨.ok _, .error e⟩, v => simp [generateHighlightReel]
    | ⟨.error e, o⟩, v => cases o <;> simp [generateHighlightReel]
  · match env, v with
    | ⟨.ok _, .ok url⟩, v => exact Or.inl rfl
    | ⟨.ok _, .error e⟩, v => exact Or.inr rfl
    | ⟨.error e, o⟩, v => cases o <;> exact Or.inr rfl
  · cases htr : transcriptionRace penv with
    | ok t =>
      simp [processVideoInBackground, transcriptionStep, htr, aiAnalysisStep,
        insightsStep, runMultiModalInsights, generateHighlightReelSync,
        generateHighlightReel, reelEnvFail, finalizeProcessing, updateProcessingStatus,
        updateTranscription, updateAiAnalysis, hasAnySuccess, diarizationAttempted,
        sentimentAttempted, textAnalysisAttempted]
    | error e =>
      simp [processVideoInBackground, transcriptionStep, htr, aiAnalysisStep,
        insightsStep, runMultiModalInsights, generateHighlightReelSync,
        generateHighlightReel, reelEnvFail, finalizeProcessing, updateProcessingStatus,
        updateTranscription, updateAiAnalysis, hasAnySuccess, diarizationAttempted,
        sentimentAttempted, textAnalysisAttempted]
  · simp only [processVideoInBackground, finalizeProcessing]
    split
    · rw [(updateProcessingStatus_preserves _ _ _ _).2.2.2.2.2.2]
      rfl
    · rw [(updateProcessingStatus_preserves _ _ _ _).2.2.2.2.2.2]
      rfl

theorem extractTag_eq_some (t : ATag) (x : String) :
    extractTag t = some x ↔ t.name = x ∧ x ≠ "" := by
  unfold extractTag
  by_cases h : t.name = ""
  · simp only [h, if_true, reduceCtorEq, false_iff]
    rintro ⟨rfl, hx⟩
    exact hx rfl
  · simp only [h, if_false, Option.some.injEq]
    constructor
    · intro hx
      exact ⟨hx, fun hxe => h (hx.trans hxe)⟩
    · exact And.left

theorem mockTranscriptions_text_ne_empty :
    ∀ i : Fin 2, (mockTranscriptions i).text ≠ "" := by decide

/-- C7, as stated, is false on the code: the merge deduplicates by exact
string equality only — merging the analysis-derived tag `"ai"` into a
record already tagged `"AI"` keeps both entries, which differ only in
letter case. -/
theorem tag_merge_not_case_normalized :
    taggedVideo.tags = ["AI"]
    ∧ lowercaseTagEnv.analysisResult.tags = [JsTag.str "ai"]
    ∧ lowercaseTagEnv.aiTags = []
    ∧ (aiAnalysisStep lowercaseTagEnv taggedVideo).tags = ["AI", "ai"]
    ∧ "AI" ∈ (aiAnalysisStep lowercaseTagEnv taggedVideo).tags
    ∧ "ai" ∈ (aiAnalysisStep lowercaseTagEnv taggedVideo).tags
    ∧ "AI".data.map Char.toLower = "ai".data.map Char.toLower
    ∧ "AI" ≠ "ai" := by
  refine ⟨rfl, rfl, rfl, rfl, ?_, ?_, ?_, ?_⟩ <;> decide

/-- C7 (amended): after the content-analysis stage and tag generation the
record's tag list is exactly the deduplicated (by exact, case-sensitive
string equality) union of the previously stored tags, the non-empty
analysis-derived tag names, and the non-blank AI-generated tags; entries
differing only in letter case are kept distinct. -/
theorem tag_merge_union (env : PipelineEnv) (v : Video) (x : String) :
    (x ∈ (aiAnalysisStep env v).tags ↔
      (x ∈ v.tags
        ∨ (x ∈ env.analysisResult.tags.map jsTagName ∧ x ≠ "")
        ∨ (x ∈ env.aiTags ∧ x.trim ≠ "")))
    ∧ (aiAnalysisStep env v).tags.Nodup := by
  constructor
  · dsimp only [aiAnalysisStep, updateAiAnalysis]
    rw [jsSetDedup_mem, List.mem_append, jsSetDedup_mem, List.mem_append]
    have hfm : x ∈ (env.analysisResult.tags.map fun t =>
          ({ name := jsTagName t } : ATag)).filterMap extractTag ↔
        (x ∈ env.analysisResult.tags.map jsTagName ∧ x ≠ "") := by
      simp only [List.mem_filterMap, List.mem_map, extractTag_eq_some]
      constructor
      · rintro ⟨a, ⟨t, ht, rfl⟩, hn, hx⟩
        exact ⟨⟨t, ht, hn⟩, hx⟩
      · rintro ⟨⟨t, ht, hn⟩, hx⟩
        exact ⟨{ name := jsTagName t }, ⟨t, ht, rfl⟩, hn, hx⟩
    have hfl : x ∈ env.aiTags.filter (fun t => t.trim ≠ "") ↔
        (x ∈ env.aiTags ∧ x.trim ≠ "") := by
      simp [List.mem_filter]
    rw [hfm, hfl]
    tauto
  · dsimp only [aiAnalysisStep, updateAiAnalysis]
    exact jsSetDedup_nodup _

/-- C8, as stated, is false on the code: deleting a record issues blob
deletions for the source video and the derived audio only — the
highlight-clip blob (uploaded under `highlight_` plus the record id) is
never deleted. -/
theorem delete_skips_highlight_blob :
    reelVideo.insights.highlightReel.status = ReelStatus.ready
    ∧ reelVideo.insights.highlightReel.url = some "https://cdn.example/highlight_v1.mp4"
    ∧ highlightPublicId reelVideo = "highlight_v1"
    ∧ (deleteVideo true reelVideo).dbDeleted = true
    ∧ (deleteVideo true reelVideo).issuedDeletes = ["videos/v1", "audio/v1"]
    ∧ highlightPublicId reelVideo ∉ (deleteVideo true reelVideo).issuedDeletes := by
  refine ⟨rfl, rfl, rfl, rfl, rfl, ?_⟩
  decide

/-- C8 (amended): deletion issues a blob deletion for the source video
and, when its public id is present, one for the derived transcript-audio
blob, and deletes the database record; no other blob deletion — in
particular none for the highlight clip — is ever issued. -/
theorem delete_cascade_blobs (v : Video) (ok : Bool) :
    (deleteVideo true v).issuedDeletes =
      v.cloudinaryPublicId ::
        (match v.audioCloudinaryPublicId with
          | some a => [a]
          | none => [])
    ∧ (deleteVideo true v).dbDeleted = true
    ∧ (∀ x ∈ (deleteVideo ok v).issuedDeletes,
        x = v.cloudinaryPublicId ∨ some x = v.audioCloudinaryPublicId) := by
  refine ⟨rfl, rfl, ?_⟩
  intro x hx
  cases ok with
  | false =>
    simp only [deleteVideo, Bool.false_eq_true, if_false, List.mem_singleton] at hx
    exact Or.inl hx
  | true =>
    cases ha : v.audioCloudinaryPublicId with
    | none =>
      simp only [deleteVideo, if_true, ha, List.mem_cons, List.not_mem_nil,
        or_false] at hx
      exact Or.inl hx
    | some a =>
      simp only [deleteVideo, if_true, ha, List.mem_cons, List.mem_singleton,
        List.not_mem_nil, or_false] at hx
      rcases hx with h | h
      · exact Or.inl h
      · exact Or.inr (by rw [h])

/-- C9, as stated, is false on the code: with the provider unconfigured
the fallback transcript is chosen by a random draw between two fixed mock
transcriptions, so two runs on the same input (the two environments below
differ only in the random draw) can return different fallback
transcripts — the placeholder is not deterministic. -/
theorem unconfigured_fallback_nondeterministic :
    unconfiguredEnv0.isGroqAvailable = false
    ∧ unconfiguredEnv1 = { unconfiguredEnv0 with mockChoice := 1 }
    ∧ transcribeVideo unconfiguredEnv0 ≠ transcribeVideo unconfiguredEnv1 := by
  refine ⟨rfl, rfl, ?_⟩
  decide

/-- C9 (amended): with the provider unconfigured the adapter never fails
the stage: it resolves with one of the two fixed mock transcriptions —
the one selected by the run's random draw — whose text is non-empty; the
choice depends on the random draw, not only on the input. -/
theorem unconfigured_fallback_mock (env : TranscribeEnv)
    (h : env.isGroqAvailable = false) :
    transcribeVideo env = mockTranscriptions env.mockChoice
    ∧ (transcribeVideo env).text ≠ ""
    ∧ (transcribeVideo env = mockTranscriptions 0
        ∨ transcribeVideo env = mockTranscriptions 1) := by
  have he : transcribeVideo env = mockTranscriptions env.mockChoice := by
    simp [transcribeVideo, h, generateEnhancedMockTranscription]
  refine ⟨he, ?_, ?_⟩
  · rw [he]
    exact mockTranscriptions_text_ne_empty env.mockChoice
  · rw [he]
    have h2 : ∀ i : Fin 2, mockTranscriptions i = mockTranscriptions 0
        ∨ mockTranscriptions i = mockTranscriptions 1 := by
      intro i
      match i with
      | 0 => exact Or.inl rfl
      | 1 => exact Or.inr rfl
    exact h2 env.mockChoice

/-- Witness for the amended C9: the unconfigured environment with random
draw 0 resolves with the first fixed mock transcription. -/
theorem unconfigured_fallback_mock_witness :
    unconfiguredEnv0.isGroqAvailable = false
    ∧ transcribeVideo unconfiguredEnv0 = mockTranscriptions 0
    ∧ (transcribeVideo unconfiguredEnv0).text ≠ ""
    ∧ (transcribeVideo unconfiguredEnv0 = mockTranscriptions 0
        ∨ transcribeVideo unconfiguredEnv0 = mockTranscriptions 1) :=
  ⟨rfl, (unconfigured_fallback_mock unconfiguredEnv0 rfl).1,
    (unconfigured_fallback_mock unconfiguredEnv0 rfl).2.1,
    (unconfigured_fallback_mock unconfiguredEnv0 rfl).2.2⟩

/-- C10, as stated, is false in one respect: the success path passes the
provider's transcript text through verbatim, so when the configured
provider resolves with an empty transcript the adapter resolves with empty
text — the claimed "non-empty text" does not hold on that input (the
totality part of the claim is the amended theorem). -/
theorem transcribe_passes_through_empty_text :
    emptyTextEnv.isGroqAvailable = true
    ∧ emptyTextEnv.directOutcome = Except.ok ⟨"", none, none, [], []⟩
    ∧ (transcribeVideo emptyTextEnv).text = "" :=
  ⟨rfl, rfl, rfl⟩

/-- C10 (amended): the adapter is total — every provider, download or
audio-extraction failure of the attempt chain is caught and replaced by
the mock transcription, whose text is non-empty (the success path instead
returns the provider's text verbatim, possibly empty); consequently, with
persistence succeeding, an orchestrator run marks the transcription stage
failed only when the 5-minute timeout wins the race. -/
theorem transcribe_total_fallback (env : TranscribeEnv) (e : String)
    (h : transcribeAttempt env = Except.error e) :
    (transcribeVideo env).text = (mockTranscriptions env.mockChoice).text
    ∧ (transcribeVideo env).text ≠ ""
    ∧ (∀ (penv : PipelineEnv) (v : Video),
        (processVideoInBackground penv v).processing.transcriptionStatus =
            Status.failed →
          penv.transcribeTimeout = true) := by
  have htext : (transcribeVideo env).text = (mockTranscriptions env.mockChoice).text := by
    cases hg : env.isGroqAvailable with
    | false => simp [transcribeVideo, hg, generateEnhancedMockTranscription]
    | true =>
      simp only [transcribeVideo, hg, Bool.true_eq_false, if_false, h,
        generateEnhancedMockTranscription]
      cases env.fallbackExtractOutcome <;> rfl
  refine ⟨htext, ?_, ?_⟩
  · rw [htext]
    exact mockTranscriptions_text_ne_empty env.mockChoice
  · intro penv v hfail
    by_contra hto
    have hto' : penv.transcribeTimeout = false := by
      cases hpt : penv.transcribeTimeout
      · rfl
      · exact absurd hpt hto
    have hrace : transcriptionRace penv =
        Except.ok (transcribeVideo penv.transcribe) := by
      simp [transcriptionRace, hto']
    have hstep : ∀ w : Video,
        (transcriptionStep penv w).processing.transcriptionStatus =
          Status.completed := by
      intro w
      simp [transcriptionStep, hrace]
    have hins : ∀ w : Video,
        (insightsStep penv w).processing.transcriptionStatus =
          w.processing.transcriptionStatus := fun _ => rfl
    have hai : ∀ w : Video,
        (aiAnalysisStep penv w).processing.transcriptionStatus =
          w.processing.transcriptionStatus := fun _ => rfl
    have hdone : (processVideoInBackground penv v).processing.transcriptionStatus =
        Status.completed := by
      simp only [processVideoInBackground]
      rw [(finalizeProcessing_preserves _ _).1, hins, hai]
      exact hstep _
    rw [hdone] at hfail
    exact absurd hfail (by decide)

/-- Witness for the amended C10: a failed audio extraction makes the
attempt chain throw, and the adapter resolves with the second mock's
non-empty text; at the timeout environment the stage is failed and the
timeout flag is indeed set. -/
theorem transcribe_total_fallback_witness :
    transcribeAttempt extractionFailEnv = Except.error "ECONNRESET"
    ∧ (transcribeVideo extractionFailEnv).text = (mockTranscriptions 1).text
    ∧ (transcribeVideo extractionFailEnv).text ≠ ""
    ∧ ((processVideoInBackground timeoutPipelineEnv baseVideo).processing.transcriptionStatus =
          Status.failed →
        timeoutPipelineEnv.transcribeTimeout = true) :=
  ⟨rfl, (transcribe_total_fallback extractionFailEnv "ECONNRESET" rfl).1,
    (transcribe_total_fallback extractionFailEnv "ECONNRESET" rfl).2.1,
    fun hfail => (transcribe_total_fallback extractionFailEnv "ECONNRESET" rfl).2.2
      timeoutPipelineEnv baseVideo hfail⟩

end MemoraAI
